import Mathlib

/-!
Verification of the OpenSeaNFTScraper repository (source: `OpenSeaBot.py`).

The development shallowly embeds the per-address resolution pipeline of
`OpenSeaBot.get_address_details` (lines 195-257), the record store logic
(lines 250-255), the settings seed (`get_settings`, lines 106-122, and its
consumer `main`, line 264), and the locator dispatch of
`wait_until_visible` (lines 181-193).

Interaction with the live page is modelled by per-address oracles: for each
element the code waits on or looks up, the oracle records whether the wait
timed out, whether the lookup raised, and the text or href the element
produced.  Two oracles are used.  `PageBehavior`/`resolveAddress` assume the
operations outside every `try` block other than session creation succeed
(`driver.get` at lines 209 and 232, and the anchor
`find_element`/`get_attribute` at line 231); the per-address theorems
condition on events downstream of those operations, so the assumption does
not touch them.  `PageBehaviorFull`/`resolveAddressFull` drop that
assumption and model every uncaught failure point of the loop body —
session creation (line 201), both navigations (lines 209, 232) and the
line-231 lookup — each of which the source lets propagate and halt the
batch; the batch-termination theorem is proved over this full model.
-/

namespace OpenSeaBot

/-- Python substring test over character lists: `pyContains p h = true` iff
`p` occurs contiguously in `h` (Python's `p in h`). -/
def pyContains (pat : List Char) : List Char → Bool
  | [] => pat.isEmpty
  | c :: rest => pat.isPrefixOf (c :: rest) || pyContains pat rest

/-- Python's `pat in hay` on strings (used at line 218: `'Unnamed' not in address_name`). -/
def pyIn (pat hay : String) : Bool :=
  pyContains pat.data hay.data

/-- Accumulator-passing core of Python's `str.split(sep)` for a one-character
separator: splits at every occurrence, keeping empty segments. -/
def pySplitAux (sep : Char) : List Char → List Char → List (List Char)
  | [], acc => [acc.reverse]
  | c :: rest, acc =>
    if c == sep then acc.reverse :: pySplitAux sep rest []
    else pySplitAux sep rest (c :: acc)

/-- Python's `s.split(sep)` for a one-character separator (line 246 uses
`asset_url.split('/')`).  Always returns a non-empty list. -/
def pySplit (s : String) (sep : Char) : List String :=
  (pySplitAux sep s.data []).map String.mk

/-- The final path segment used at line 246: `asset_url.split('/')[-1]`. -/
def lastSegment (url : String) : String :=
  (pySplit url '/').getLastD ""

/-- Python's `s.replace('"', '')` (line 228): drop every double-quote character. -/
def stripQuotes (s : String) : String :=
  String.mk (s.data.filter (fun c => c != '"'))

/-- Outcome of the guarded owner-name stage (lines 215-221): the wait can time
out, the element lookup after a successful wait can still raise, or the
element is visible with some text. -/
inductive ElemOutcome where
  | timeout : ElemOutcome
  | lookupFailed : ElemOutcome
  | visible : String → ElemOutcome
deriving DecidableEq

/-- Oracle describing how the marketplace pages behave for one address.
Each field corresponds to one interaction of `get_address_details`:
* `sessionOk`      - whether `get_driver` (line 201) succeeds;
* `owner`          - owner-name element on the collection page (lines 216-217);
* `assetAnchor`    - `none` if the asset-anchor wait (line 223) times out,
                     otherwise the `href` read at line 231;
* `collectionLabel`- `none` if the collection-label lookup (line 228) raises,
                     otherwise its raw text;
* `assetLink`      - whether the asset page's collection-link wait (line 235)
                     succeeds within its timeout;
* `collectionName` - `none` if the collection-name lookup (line 239) raises;
* `bestOffer`      - `none` if the best-offer lookup (line 243) raises
                     (element absent), otherwise its text.
This oracle assumes the unguarded `driver.get` calls (lines 209, 232) and
the unguarded anchor lookup (line 231) succeed; `PageBehaviorFull` below
models their failure as well. -/
structure PageBehavior where
  sessionOk : Bool
  owner : ElemOutcome
  assetAnchor : Option String
  collectionLabel : Option String
  assetLink : Bool
  collectionName : Option String
  bestOffer : Option String
deriving DecidableEq

/-- The record assembled at lines 247-248 (the `stats` dict, in key order). -/
structure Stats where
  todaysDate : String
  scanAddress : String
  collectionName : String
  collection : String
  assetNumber : String
  bestOffer : String
  premium : String
deriving DecidableEq

/-- `premium` as computed by lines 211 and 215-221: starts empty, becomes
`"Y"` only when the owner-name element is visible and its text does not
contain `"Unnamed"`; any timeout or lookup failure leaves it empty. -/
def premiumText : ElemOutcome → String
  | ElemOutcome.visible t => if pyIn "Unnamed" t then "" else "Y"
  | _ => ""

/-- `collection` as computed by lines 211 and 227-230: empty on lookup
failure, otherwise the text with double quotes stripped. -/
def labelText : Option String → String
  | some t => stripQuotes t
  | none => ""

/-- How one loop iteration of `get_address_details` terminates. -/
inductive AddrOutcome where
  | crashed : AddrOutcome
  | skipAnchor : AddrOutcome
  | skipLink : AddrOutcome
  | emitted : Stats → AddrOutcome
deriving DecidableEq

/-- Observable result of one address's resolution: the terminal outcome,
whether a session (driver) was created, and whether `finish` (line 257)
closed it before the iteration ended. -/
structure AddrRun where
  outcome : AddrOutcome
  sessionCreated : Bool
  sessionClosed : Bool
deriving DecidableEq

/-- One iteration of the loop body of `get_address_details` (lines 199-257)
against the oracle `b`:
* `get_driver` fails (line 201) → the exception escapes; no session exists
  (`crashed`);
* asset-anchor wait times out (lines 222-226) → `continue`, which jumps past
  `finish` at line 257, so the session stays open (`skipAnchor`);
* collection-link wait times out (lines 234-237) → same `continue` shape
  (`skipLink`);
* otherwise the `stats` record of lines 247-248 is assembled and the session
  is closed by `finish` (line 257).
The unguarded `driver.get` calls (lines 209, 232) and the unguarded anchor
`find_element`/`get_attribute` (line 231) are assumed to succeed here;
`resolveAddressFull` below models their failure, which the source leaves
uncaught. -/
def resolveAddress (today address : String) (b : PageBehavior) : AddrRun :=
  if b.sessionOk then
    match b.assetAnchor with
    | none => ⟨AddrOutcome.skipAnchor, true, false⟩
    | some assetUrl =>
      if b.assetLink then
        ⟨AddrOutcome.emitted
          { todaysDate := today
            scanAddress := address
            collectionName := b.collectionName.getD ""
            collection := labelText b.collectionLabel
            assetNumber := lastSegment assetUrl
            bestOffer := b.bestOffer.getD ""
            premium := premiumText b.owner },
          true, true⟩
      else ⟨AddrOutcome.skipLink, true, false⟩
  else ⟨AddrOutcome.crashed, false, false⟩

/-- The persistent output file `Valid.csv`: either absent, or a header row
followed by data rows. -/
inductive Store where
  | absent : Store
  | present : List String → List (List String) → Store
deriving DecidableEq

/-- Column order of the `stats` dict (lines 247-248), which pandas uses as
the CSV header. -/
def statsHeader : List String :=
  ["TodaysDate", "ScanAddress", "CollectionName", "Collection", "AssetNumber",
   "BestOffer", "Premium"]

/-- One data row of the output file, in header order. -/
def statsRow (s : Stats) : List String :=
  [s.todaysDate, s.scanAddress, s.collectionName, s.collection, s.assetNumber,
   s.bestOffer, s.premium]

/-- Lines 250-255: if `Valid.csv` does not exist, write header plus the row;
otherwise append the row without a header. -/
def appendRecord (st : Store) (s : Stats) : Store :=
  match st with
  | Store.absent => Store.present statsHeader [statsRow s]
  | Store.present hd rows => Store.present hd (rows ++ [statsRow s])

/-- Result of a whole batch: final store state, the per-address runs that the
loop actually executed (in order), and whether an uncaught exception
terminated the loop early. -/
structure BatchResult where
  store : Store
  trace : List (String × AddrRun)
  crashed : Bool
deriving DecidableEq

/-- The loop of `get_address_details` (lines 199-257) over oracle-paired
addresses.  A `crashed` iteration (session-creation failure, line 201, not
wrapped in any `try`) propagates: the remaining addresses are never
attempted.  An emitted record is appended to the store; skip iterations
leave the store untouched and the loop advances. -/
def get_address_details (today : String) :
    List (String × PageBehavior) → Store → BatchResult
  | [], st => ⟨st, [], false⟩
  | (a, b) :: rest, st =>
    match (resolveAddress today a b).outcome with
    | AddrOutcome.crashed => ⟨st, [(a, resolveAddress today a b)], true⟩
    | AddrOutcome.emitted s =>
      ⟨(get_address_details today rest (appendRecord st s)).store,
        (a, resolveAddress today a b) ::
          (get_address_details today rest (appendRecord st s)).trace,
        (get_address_details today rest (appendRecord st s)).crashed⟩
    | AddrOutcome.skipAnchor =>
      ⟨(get_address_details today rest st).store,
        (a, resolveAddress today a b) :: (get_address_details today rest st).trace,
        (get_address_details today rest st).crashed⟩
    | AddrOutcome.skipLink =>
      ⟨(get_address_details today rest st).store,
        (a, resolveAddress today a b) :: (get_address_details today rest st).trace,
        (get_address_details today rest st).crashed⟩

/-- Nested string-keyed objects of `Settings.json`, one level deep. -/
abbrev SettingsObj := List (String × List (String × Nat))

/-- The default settings seeded by `get_settings` when no settings file
exists (lines 115-117): `{"Settings": {"ThreadsCount": 5}}`. -/
def seedSettings : SettingsObj :=
  [("Settings", [("ThreadsCount", 5)])]

/-- `get_settings` (lines 106-122): load the existing file if present,
otherwise write the seed and re-read it. -/
def get_settings (existing : Option SettingsObj) : SettingsObj :=
  match existing with
  | some s => s
  | none => seedSettings

/-- Line 264: `settings["Settings"]["ThreadCount"]`; a missing key raises
`KeyError`. -/
def readThreadCount (settings : SettingsObj) : Except String Nat :=
  match List.lookup "Settings" settings with
  | none => Except.error "KeyError: Settings"
  | some inner =>
    match List.lookup "ThreadCount" inner with
    | none => Except.error "KeyError: ThreadCount"
    | some n => Except.ok n

/-- `main` (lines 259-267): the thread count is read at line 264 before the
address file is loaded at line 265 and before `get_address_details` runs, so
a `KeyError` there prevents both.  Address loading is passed as a thunk to
reflect that order. -/
def main (settings : SettingsObj)
    (loadAddresses : Unit → List (String × PageBehavior)) (today : String) :
    Except String BatchResult :=
  match readThreadCount settings with
  | Except.error e => Except.error e
  | Except.ok _ => Except.ok (get_address_details today (loadAddresses ()) Store.absent)

/-- The five locator kinds of `wait_until_visible` (lines 181-193). -/
inductive LocatorKind where
  | cssSelector : LocatorKind
  | elementId : LocatorKind
  | nameAttr : LocatorKind
  | className : LocatorKind
  | tagName : LocatorKind
deriving DecidableEq

/-- Python truthiness of an optional string argument: `None` and the empty
string are falsy. -/
def truthy : Option String → Bool
  | none => false
  | some s => !s.data.isEmpty

/-- `wait_until_visible` (lines 181-193): the `if`/`elif` chain selects the
locator actually waited on, in source order; with no truthy locator the
function falls through and returns without waiting.  The value returned here
is the locator handed to the underlying wait, `none` meaning no wait at all. -/
def wait_until_visible (css_selector element_id nameAttr class_name tag_name :
    Option String) : Option (LocatorKind × String) :=
  if truthy css_selector then some (LocatorKind.cssSelector, css_selector.getD "")
  else if truthy element_id then some (LocatorKind.elementId, element_id.getD "")
  else if truthy nameAttr then some (LocatorKind.nameAttr, nameAttr.getD "")
  else if truthy class_name then some (LocatorKind.className, class_name.getD "")
  else if truthy tag_name then some (LocatorKind.tagName, tag_name.getD "")
  else none

/-- Specification-side description of `wait_until_visible`: scan the locators
in priority order and pick the first one that was (truthily) supplied. -/
def firstSuppliedLocator : List (LocatorKind × Option String) → Option (LocatorKind × String)
  | [] => none
  | (k, v) :: rest =>
    if truthy v then some (k, v.getD "") else firstSuppliedLocator rest

/-! ### Concrete behaviors used as test inputs -/

/-- A fully healthy page: every element resolves. -/
def bGood : PageBehavior :=
  { sessionOk := true
    owner := ElemOutcome.visible "CryptoKing"
    assetAnchor := some "https://opensea.io/assets/ethereum/0xabc/42"
    collectionLabel := some "Top \"Collection\""
    assetLink := true
    collectionName := some "Cool Cats"
    bestOffer := some "$17.90" }

/-- Same page, but session creation (`get_driver`) raises. -/
def bNoSession : PageBehavior :=
  { bGood with sessionOk := false }

/-- Same page, but the asset-anchor wait (line 223) times out. -/
def bAnchorTimeout : PageBehavior :=
  { bGood with assetAnchor := none }

/-- Same page, but the collection-link wait (line 235) times out. -/
def bLinkTimeout : PageBehavior :=
  { bGood with assetLink := false }

/-- Best-offer element absent, and an asset URL ending in a slash. -/
def bNoOffer : PageBehavior :=
  { bGood with
    bestOffer := none
    assetAnchor := some "https://opensea.io/assets/ethereum/0xabc/" }

/-- The record that `resolveAddress` emits for `bGood` on `"01-01-2024"`/`"a1"`. -/
def sGood : Stats :=
  { todaysDate := "01-01-2024"
    scanAddress := "a1"
    collectionName := "Cool Cats"
    collection := "Top Collection"
    assetNumber := "42"
    bestOffer := "$17.90"
    premium := "Y" }

/-! ### Helper lemmas about one resolution -/

/-- The record assembled on the success path of `resolveAddress`. -/
def doneStats (today a : String) (b : PageBehavior) (u : String) : Stats :=
  { todaysDate := today
    scanAddress := a
    collectionName := b.collectionName.getD ""
    collection := labelText b.collectionLabel
    assetNumber := lastSegment u
    bestOffer := b.bestOffer.getD ""
    premium := premiumText b.owner }

/-! ### Full-fidelity model of the loop body

The source leaves four operations of the loop body outside every `try`
block: session creation (`get_driver`, line 201), navigation to the
collection page (`driver.get`, line 209), the asset-anchor
`find_element`/`get_attribute` (line 231), and navigation to the asset page
(`driver.get`, line 232).  An exception from any of them propagates out of
`get_address_details` and halts the batch.  The full oracle records a
success flag for each. -/

/-- Per-address oracle with every uncaught failure point of the loop body.
Fields follow source order:
* `sessionOk`      - `get_driver` (line 201) succeeds;
* `navHomeOk`      - `driver.get(final_url)` (line 209, unguarded) succeeds;
* `owner`          - owner-name stage (lines 215-221, guarded);
* `assetAnchor`    - `none` if the asset-anchor wait (line 223) times out,
                     otherwise the `href` the anchor carries;
* `collectionLabel`- collection-label lookup (line 228, guarded);
* `anchorHrefOk`   - the unguarded `find_element(...).get_attribute('href')`
                     (line 231) succeeds;
* `navAssetOk`     - `driver.get(asset_url)` (line 232, unguarded) succeeds;
* `assetLink`      - collection-link wait (line 235) succeeds;
* `collectionName` - collection-name lookup (line 239, guarded);
* `bestOffer`      - best-offer lookup (line 243, guarded). -/
structure PageBehaviorFull where
  sessionOk : Bool
  navHomeOk : Bool
  owner : ElemOutcome
  assetAnchor : Option String
  collectionLabel : Option String
  anchorHrefOk : Bool
  navAssetOk : Bool
  assetLink : Bool
  collectionName : Option String
  bestOffer : Option String
deriving DecidableEq

/-- One iteration of the loop body of `get_address_details`, with every
uncaught failure point modelled.  A failure of `get_driver` (line 201)
crashes before a session exists; failures of the unguarded `driver.get`
(lines 209, 232) or the unguarded anchor lookup (line 231) crash with the
session created but never closed (`finish` at line 257 is not reached).
The guarded stages and the two `continue` exits behave as in
`resolveAddress`. -/
def resolveAddressFull (today address : String) (b : PageBehaviorFull) : AddrRun :=
  if b.sessionOk then
    if b.navHomeOk then
      match b.assetAnchor with
      | none => ⟨AddrOutcome.skipAnchor, true, false⟩
      | some assetUrl =>
        if b.anchorHrefOk then
          if b.navAssetOk then
            if b.assetLink then
              ⟨AddrOutcome.emitted
                { todaysDate := today
                  scanAddress := address
                  collectionName := b.collectionName.getD ""
                  collection := labelText b.collectionLabel
                  assetNumber := lastSegment assetUrl
                  bestOffer := b.bestOffer.getD ""
                  premium := premiumText b.owner },
                true, true⟩
            else ⟨AddrOutcome.skipLink, true, false⟩
          else ⟨AddrOutcome.crashed, true, false⟩
        else ⟨AddrOutcome.crashed, true, false⟩
    else ⟨AddrOutcome.crashed, true, false⟩
  else ⟨AddrOutcome.crashed, false, false⟩

/-- The loop of `get_address_details` over the full oracle: a crashed
iteration (any uncaught exception) halts the batch, leaving the remaining
addresses unattempted; skip and emit iterations advance as in
`get_address_details`. -/
def get_address_details_full (today : String) :
    List (String × PageBehaviorFull) → Store → BatchResult
  | [], st => ⟨st, [], false⟩
  | (a, b) :: rest, st =>
    match (resolveAddressFull today a b).outcome with
    | AddrOutcome.crashed => ⟨st, [(a, resolveAddressFull today a b)], true⟩
    | AddrOutcome.emitted s =>
      ⟨(get_address_details_full today rest (appendRecord st s)).store,
        (a, resolveAddressFull today a b) ::
          (get_address_details_full today rest (appendRecord st s)).trace,
        (get_address_details_full today rest (appendRecord st s)).crashed⟩
    | AddrOutcome.skipAnchor =>
      ⟨(get_address_details_full today rest st).store,
        (a, resolveAddressFull today a b) ::
          (get_address_details_full today rest st).trace,
        (get_address_details_full today rest st).crashed⟩
    | AddrOutcome.skipLink =>
      ⟨(get_address_details_full today rest st).store,
        (a, resolveAddressFull today a b) ::
          (get_address_details_full today rest st).trace,
        (get_address_details_full today rest st).crashed⟩

/-- Whether an address's iteration hits an exception outside every `try`
block: session creation (line 201), collection-page navigation (line 209),
or — once the asset anchor resolved — the unguarded anchor lookup
(line 231) or asset-page navigation (line 232).  When the anchor wait times
out the iteration exits at line 226 before reaching lines 231-232. -/
def uncaughtFailure (b : PageBehaviorFull) : Bool :=
  !b.sessionOk || !b.navHomeOk ||
    (match b.assetAnchor with
     | none => false
     | some _ => !b.anchorHrefOk || !b.navAssetOk)

/-- Forget the failure flags of the unguarded operations, keeping the
stages both oracles share. -/
def projectBehavior (b : PageBehaviorFull) : PageBehavior :=
  { sessionOk := b.sessionOk
    owner := b.owner
    assetAnchor := b.assetAnchor
    collectionLabel := b.collectionLabel
    assetLink := b.assetLink
    collectionName := b.collectionName
    bestOffer := b.bestOffer }

/-- A fully healthy page for the full oracle. -/
def bFullGood : PageBehaviorFull :=
  { sessionOk := true
    navHomeOk := true
    owner := ElemOutcome.visible "CryptoKing"
    assetAnchor := some "https://opensea.io/assets/ethereum/0xabc/42"
    collectionLabel := some "Top \"Collection\""
    anchorHrefOk := true
    navAssetOk := true
    assetLink := true
    collectionName := some "Cool Cats"
    bestOffer := some "$17.90" }

/-- Same page, but session creation (`get_driver`, line 201) raises. -/
def bFullNoSession : PageBehaviorFull :=
  { bFullGood with sessionOk := false }

/-- Same page, but the unguarded `driver.get` at line 209 raises. -/
def bFullNavFail : PageBehaviorFull :=
  { bFullGood with navHomeOk := false }

/-- Same page, but the asset-anchor wait (line 223) times out. -/
def bFullAnchorTimeout : PageBehaviorFull :=
  { bFullGood with assetAnchor := none }

theorem resolveAddress_crash (today a : String) (b : PageBehavior)
    (h : b.sessionOk = false) :
    resolveAddress today a b = ⟨AddrOutcome.crashed, false, false⟩ := by
  simp [resolveAddress, h]

theorem resolveAddress_skipAnchor (today a : String) (b : PageBehavior)
    (h1 : b.sessionOk = true) (h2 : b.assetAnchor = none) :
    resolveAddress today a b = ⟨AddrOutcome.skipAnchor, true, false⟩ := by
  simp [resolveAddress, h1, h2]

theorem resolveAddress_skipLink (today a : String) (b : PageBehavior) (u : String)
    (h1 : b.sessionOk = true) (h2 : b.assetAnchor = some u)
    (h3 : b.assetLink = false) :
    resolveAddress today a b = ⟨AddrOutcome.skipLink, true, false⟩ := by
  simp [resolveAddress, h1, h2, h3]

theorem resolveAddress_done (today a : String) (b : PageBehavior) (u : String)
    (h1 : b.sessionOk = true) (h2 : b.assetAnchor = some u)
    (h3 : b.assetLink = true) :
    resolveAddress today a b =
      ⟨AddrOutcome.emitted (doneStats today a b u), true, true⟩ := by
  simp [resolveAddress, h1, h2, h3, doneStats]

theorem premiumText_cases (ow : ElemOutcome) :
    premiumText ow = "Y" ∨ premiumText ow = "" := by
  cases ow with
  | timeout => exact Or.inr rfl
  | lookupFailed => exact Or.inr rfl
  | visible t =>
    by_cases hc : pyIn "Unnamed" t
    · exact Or.inr (by simp [premiumText, hc])
    · exact Or.inl (by simp [premiumText, hc])

theorem resolveAddress_not_crashed (today a : String) (b : PageBehavior)
    (h : b.sessionOk = true) :
    (resolveAddress today a b).outcome ≠ AddrOutcome.crashed := by
  rcases h2 : b.assetAnchor with _ | u
  · rw [resolveAddress_skipAnchor today a b h h2]; simp
  · cases h3 : b.assetLink
    · rw [resolveAddress_skipLink today a b u h h2 h3]; simp
    · rw [resolveAddress_done today a b u h h2 h3]; simp

/-- An iteration of the full model crashes exactly when one of the four
uncaught failure points fires. -/
theorem resolveAddressFull_crashed_iff (today a : String) (b : PageBehaviorFull) :
    (resolveAddressFull today a b).outcome = AddrOutcome.crashed ↔
      uncaughtFailure b = true := by
  obtain ⟨so, nh, ow, aa, clb, ah, na, al, cn, bo⟩ := b
  cases so <;> cases nh <;> rcases aa with _ | u <;> cases ah <;> cases na <;>
    cases al <;> simp [resolveAddressFull, uncaughtFailure]

/-- When the unguarded operations all succeed, the full model agrees with
`resolveAddress` on the shared stages. -/
theorem resolveAddressFull_agrees (today a : String) (b : PageBehaviorFull)
    (h1 : b.navHomeOk = true) (h2 : b.anchorHrefOk = true)
    (h3 : b.navAssetOk = true) :
    resolveAddressFull today a b = resolveAddress today a (projectBehavior b) := by
  obtain ⟨so, nh, ow, aa, clb, ah, na, al, cn, bo⟩ := b
  cases so <;> cases nh <;> rcases aa with _ | u <;> cases ah <;> cases na <;>
    cases al <;> simp_all [resolveAddressFull, resolveAddress, projectBehavior]

/-! ### Claim theorems -/

/-- Claim C4: for every resolution that emits a record, the record's
`premium` field is `"Y"` if and only if the owner-name element became
visible within its timeout with a text not containing the literal substring
`"Unnamed"`; in every other case (timeout, lookup failure, or text
containing `"Unnamed"`) it is the empty string, and it never takes any
other value. -/
theorem premium_flag_iff (today a : String) (b : PageBehavior) (s : Stats)
    (h : (resolveAddress today a b).outcome = AddrOutcome.emitted s) :
    (s.premium = "Y" ↔
      ∃ t, b.owner = ElemOutcome.visible t ∧ pyIn "Unnamed" t = false) ∧
    (s.premium = "Y" ∨ s.premium = "") := by
  cases hs : b.sessionOk with
  | false => rw [resolveAddress_crash today a b hs] at h; simp at h
  | true =>
    rcases ha : b.assetAnchor with _ | u
    · rw [resolveAddress_skipAnchor today a b hs ha] at h; simp at h
    · cases hl : b.assetLink with
      | false => rw [resolveAddress_skipLink today a b u hs ha hl] at h; simp at h
      | true =>
        rw [resolveAddress_done today a b u hs ha hl] at h
        simp only [AddrOutcome.emitted.injEq] at h
        subst h
        refine ⟨?_, premiumText_cases b.owner⟩
        show premiumText b.owner = "Y" ↔ _
        rcases ho : b.owner with _ | _ | t
        · simp only [premiumText]
          constructor
          · intro hE; exact absurd hE (by decide)
          · rintro ⟨t, ht, -⟩; exact ElemOutcome.noConfusion ht
        · simp only [premiumText]
          constructor
          · intro hE; exact absurd hE (by decide)
          · rintro ⟨t, ht, -⟩; exact ElemOutcome.noConfusion ht
        · simp only [premiumText]
          cases hc : pyIn "Unnamed" t with
          | false =>
            simp only [hc, Bool.false_eq_true, if_false]
            exact ⟨fun _ => ⟨t, rfl, hc⟩, fun _ => by trivial⟩
          | true =>
            simp only [hc, if_true]
            constructor
            · intro hE; exact absurd hE (by decide)
            · rintro ⟨t1, ht1, hp⟩
              cases ht1
              rw [hc] at hp
              exact absurd hp (by decide)

/-- Witness for C4: the fully healthy page emits `sGood`, whose premium flag
satisfies the characterisation. -/
theorem premium_flag_iff_witness :
    (sGood.premium = "Y" ↔
      ∃ t, bGood.owner = ElemOutcome.visible t ∧ pyIn "Unnamed" t = false) ∧
    (sGood.premium = "Y" ∨ sGood.premium = "") :=
  premium_flag_iff "01-01-2024" "a1" bGood sGood (by decide)

/-- Claim C5: for every resolution that emits a record, the record's
`assetNumber` equals the final `/`-delimited segment of the asset URL the
resolution followed (line 246: `asset_url.split('/')[-1]`). -/
theorem asset_number_last_segment (today a u : String) (b : PageBehavior)
    (s : Stats)
    (h1 : (resolveAddress today a b).outcome = AddrOutcome.emitted s)
    (h2 : b.assetAnchor = some u) :
    s.assetNumber = (pySplit u '/').getLastD "" := by
  cases hs : b.sessionOk with
  | false => rw [resolveAddress_crash today a b hs] at h1; simp at h1
  | true =>
    cases hl : b.assetLink with
    | false => rw [resolveAddress_skipLink today a b u hs h2 hl] at h1; simp at h1
    | true =>
      rw [resolveAddress_done today a b u hs h2 hl] at h1
      simp only [AddrOutcome.emitted.injEq] at h1
      subst h1
      rfl

/-- Witness for C5: the healthy page's asset URL ends in `42`, and the
emitted record's `assetNumber` is that segment. -/
theorem asset_number_last_segment_witness :
    sGood.assetNumber =
      (pySplit "https://opensea.io/assets/ethereum/0xabc/42" '/').getLastD "" :=
  asset_number_last_segment "01-01-2024" "a1"
    "https://opensea.io/assets/ethereum/0xabc/42" bGood sGood (by decide) rfl

/-- Counterexample to C2 as stated: on both terminal-skip paths the
`continue` (lines 226 and 237) bypasses `finish` (line 257), so a session
was created but never closed — it outlives its address. -/
theorem session_leak_on_terminal_skip :
    (resolveAddress "01-01-2024" "addr1" bAnchorTimeout).sessionCreated = true ∧
    (resolveAddress "01-01-2024" "addr1" bAnchorTimeout).outcome =
      AddrOutcome.skipAnchor ∧
    (resolveAddress "01-01-2024" "addr1" bAnchorTimeout).sessionClosed = false ∧
    (resolveAddress "01-01-2024" "addr2" bLinkTimeout).sessionCreated = true ∧
    (resolveAddress "01-01-2024" "addr2" bLinkTimeout).outcome =
      AddrOutcome.skipLink ∧
    (resolveAddress "01-01-2024" "addr2" bLinkTimeout).sessionClosed = false := by
  decide

/-- Claim C2 (amended): a created session is closed before the resolution
returns exactly when the resolution emits a record; on both terminal-skip
early exits the session is left open. -/
theorem session_closed_iff_emitted (today a : String) (b : PageBehavior)
    (h : (resolveAddress today a b).sessionCreated = true) :
    ((resolveAddress today a b).sessionClosed = true ↔
      ∃ s, (resolveAddress today a b).outcome = AddrOutcome.emitted s) := by
  cases hs : b.sessionOk with
  | false => rw [resolveAddress_crash today a b hs] at h; simp at h
  | true =>
    rcases ha : b.assetAnchor with _ | u
    · rw [resolveAddress_skipAnchor today a b hs ha]; simp
    · cases hl : b.assetLink with
      | false => rw [resolveAddress_skipLink today a b u hs ha hl]; simp
      | true => rw [resolveAddress_done today a b u hs ha hl]; simp

/-- Witness for the amended C2: on the healthy page a session is created and
the equivalence is inhabited. -/
theorem session_closed_iff_emitted_witness :
    ((resolveAddress "01-01-2024" "a1" bGood).sessionClosed = true ↔
      ∃ s, (resolveAddress "01-01-2024" "a1" bGood).outcome =
        AddrOutcome.emitted s) :=
  session_closed_iff_emitted "01-01-2024" "a1" bGood (by decide)

/-- Claim C3: when the asset-anchor wait or the collection-link wait times
out, the iteration emits no record, contributes nothing to the store, and
the loop advances to the remaining addresses exactly as if the address had
not been there. -/
theorem terminal_skip_zero_records (today a : String) (b : PageBehavior)
    (rest : List (String × PageBehavior)) (st : Store)
    (hs : b.sessionOk = true) (h : b.assetAnchor = none ∨ b.assetLink = false) :
    (∀ s, (resolveAddress today a b).outcome ≠ AddrOutcome.emitted s) ∧
    get_address_details today ((a, b) :: rest) st =
      ⟨(get_address_details today rest st).store,
        (a, resolveAddress today a b) :: (get_address_details today rest st).trace,
        (get_address_details today rest st).crashed⟩ := by
  have hr : resolveAddress today a b = ⟨AddrOutcome.skipAnchor, true, false⟩ ∨
      resolveAddress today a b = ⟨AddrOutcome.skipLink, true, false⟩ := by
    rcases h with h | h
    · exact Or.inl (resolveAddress_skipAnchor today a b hs h)
    · rcases ha : b.assetAnchor with _ | u
      · exact Or.inl (resolveAddress_skipAnchor today a b hs ha)
      · exact Or.inr (resolveAddress_skipLink today a b u hs ha h)
  rcases hr with hr | hr
  · exact ⟨fun s => by rw [hr]; simp, by simp [get_address_details, hr]⟩
  · exact ⟨fun s => by rw [hr]; simp, by simp [get_address_details, hr]⟩

/-- Witness for C3: anchor timeout on the first address, with one healthy
address remaining. -/
theorem terminal_skip_zero_records_witness :
    (∀ s, (resolveAddress "01-01-2024" "a1" bAnchorTimeout).outcome ≠
      AddrOutcome.emitted s) ∧
    get_address_details "01-01-2024" [("a1", bAnchorTimeout), ("a2", bGood)]
        Store.absent =
      ⟨(get_address_details "01-01-2024" [("a2", bGood)] Store.absent).store,
        ("a1", resolveAddress "01-01-2024" "a1" bAnchorTimeout) ::
          (get_address_details "01-01-2024" [("a2", bGood)] Store.absent).trace,
        (get_address_details "01-01-2024" [("a2", bGood)] Store.absent).crashed⟩ :=
  terminal_skip_zero_records "01-01-2024" "a1" bAnchorTimeout [("a2", bGood)]
    Store.absent (by decide) (Or.inl (by decide))

/-- Claim C8: when the asset anchor and the asset-page collection link both
resolve within their timeouts, exactly one record is appended to the store
for that address, and its `scanAddress` is the input address. -/
theorem resolved_address_emits_once (today a u : String) (b : PageBehavior)
    (rest : List (String × PageBehavior)) (st : Store)
    (h1 : b.sessionOk = true) (h2 : b.assetAnchor = some u)
    (h3 : b.assetLink = true) :
    ∃ s : Stats, (resolveAddress today a b).outcome = AddrOutcome.emitted s ∧
      s.scanAddress = a ∧
      get_address_details today ((a, b) :: rest) st =
        ⟨(get_address_details today rest (appendRecord st s)).store,
          (a, resolveAddress today a b) ::
            (get_address_details today rest (appendRecord st s)).trace,
          (get_address_details today rest (appendRecord st s)).crashed⟩ := by
  have hr := resolveAddress_done today a b u h1 h2 h3
  refine ⟨doneStats today a b u, by rw [hr], rfl, ?_⟩
  simp [get_address_details, hr]

/-- Witness for C8: the healthy page appends exactly one record whose
`scanAddress` is the input address. -/
theorem resolved_address_emits_once_witness :
    ∃ s : Stats, (resolveAddress "01-01-2024" "a1" bGood).outcome =
        AddrOutcome.emitted s ∧
      s.scanAddress = "a1" ∧
      get_address_details "01-01-2024" [("a1", bGood)] Store.absent =
        ⟨(get_address_details "01-01-2024" [] (appendRecord Store.absent s)).store,
          ("a1", resolveAddress "01-01-2024" "a1" bGood) ::
            (get_address_details "01-01-2024" [] (appendRecord Store.absent s)).trace,
          (get_address_details "01-01-2024" [] (appendRecord Store.absent s)).crashed⟩ :=
  resolved_address_emits_once "01-01-2024" "a1"
    "https://opensea.io/assets/ethereum/0xabc/42" bGood [] Store.absent
    (by decide) rfl rfl

/-- Counterexample to C1 as stated: a session-creation failure (line 201)
on the first address is caught nowhere in the loop, so the batch terminates
and the second (healthy) address is never attempted; an unguarded
navigation failure (line 209) halts the batch the same way. -/
theorem session_failure_halts_batch :
    bFullGood.sessionOk = true ∧
    (get_address_details_full "01-01-2024"
      [("addr1", bFullNoSession), ("addr2", bFullGood)] Store.absent).crashed =
      true ∧
    (get_address_details_full "01-01-2024"
      [("addr1", bFullNoSession), ("addr2", bFullGood)] Store.absent).trace.map
      Prod.fst = ["addr1"] ∧
    (get_address_details_full "01-01-2024"
      [("addr1", bFullNavFail), ("addr2", bFullGood)] Store.absent).crashed =
      true ∧
    (get_address_details_full "01-01-2024"
      [("addr1", bFullNavFail), ("addr2", bFullGood)] Store.absent).trace.map
      Prod.fst = ["addr1"] := by
  decide

/-- Claim C1 (amended): failures inside the per-stage `try`/`except` blocks
never terminate the batch; the batch terminates early exactly when some
address raises outside every `try` block — session creation (line 201),
collection-page navigation (line 209), the unguarded asset-anchor lookup
(line 231), or asset-page navigation (line 232) — and when no address hits
such an uncaught failure, every address is attempted in order. -/
theorem batch_crashes_iff_uncaught (today : String)
    (jobs : List (String × PageBehaviorFull)) (st : Store) :
    ((get_address_details_full today jobs st).crashed = true ↔
      ∃ j ∈ jobs, uncaughtFailure j.2 = true) ∧
    ((∀ j ∈ jobs, uncaughtFailure j.2 = false) →
      (get_address_details_full today jobs st).trace.map Prod.fst =
        jobs.map Prod.fst) := by
  induction jobs generalizing st with
  | nil => exact ⟨by simp [get_address_details_full], fun _ => rfl⟩
  | cons jb rest ih =>
    obtain ⟨a, b⟩ := jb
    cases hu : uncaughtFailure b with
    | true =>
      have ho : (resolveAddressFull today a b).outcome = AddrOutcome.crashed :=
        (resolveAddressFull_crashed_iff today a b).2 hu
      refine ⟨?_, ?_⟩
      · simp only [get_address_details_full, ho]
        simp [hu]
      · intro hall
        exact absurd (hall (a, b) (by simp)) (by simp [hu])
    | false =>
      have hnc : (resolveAddressFull today a b).outcome ≠ AddrOutcome.crashed :=
        fun hcr =>
          absurd ((resolveAddressFull_crashed_iff today a b).1 hcr)
            (by simp [hu])
      rcases ho : (resolveAddressFull today a b).outcome with _ | _ | _ | s
      · exact absurd ho hnc
      · refine ⟨?_, ?_⟩
        · simp only [get_address_details_full, ho]
          simp [hu, (ih st).1]
        · intro hall
          have h2 := (ih st).2 (fun j hj => hall j (by simp [hj]))
          simp [get_address_details_full, ho, h2]
      · refine ⟨?_, ?_⟩
        · simp only [get_address_details_full, ho]
          simp [hu, (ih st).1]
        · intro hall
          have h2 := (ih st).2 (fun j hj => hall j (by simp [hj]))
          simp [get_address_details_full, ho, h2]
      · refine ⟨?_, ?_⟩
        · simp only [get_address_details_full, ho]
          simp [hu, (ih (appendRecord st s)).1]
        · intro hall
          have h2 := (ih (appendRecord st s)).2 (fun j hj => hall j (by simp [hj]))
          simp [get_address_details_full, ho, h2]

/-- Witness for the amended C1: a two-address batch with no uncaught
failure (the second address is a terminal skip) attempts every address and
never crashes. -/
theorem batch_crashes_iff_uncaught_witness :
    (∀ j ∈ [("a1", bFullGood), ("a2", bFullAnchorTimeout)],
      uncaughtFailure j.2 = false) ∧
    (get_address_details_full "01-01-2024"
      [("a1", bFullGood), ("a2", bFullAnchorTimeout)] Store.absent).trace.map
      Prod.fst = ([("a1", bFullGood), ("a2", bFullAnchorTimeout)]).map Prod.fst :=
  ⟨by decide,
    (batch_crashes_iff_uncaught "01-01-2024"
      [("a1", bFullGood), ("a2", bFullAnchorTimeout)] Store.absent).2
      (by decide)⟩

/-- Counterexample to C6 as stated: with both structural anchors resolved
and the best-offer element absent, a record is emitted with `bestOffer`
empty, but its `assetNumber` is the empty string (the asset URL ends in a
slash), refuting the claimed non-emptiness. -/
theorem empty_asset_number_record :
    bNoOffer.bestOffer = none ∧ bNoOffer.sessionOk = true ∧
    bNoOffer.assetLink = true ∧
    (resolveAddress "01-01-2024" "addr1" bNoOffer).outcome =
      AddrOutcome.emitted
        { todaysDate := "01-01-2024", scanAddress := "addr1",
          collectionName := "Cool Cats", collection := "Top Collection",
          assetNumber := "", bestOffer := "", premium := "Y" } := by
  decide

/-- Claim C6 (amended): with both structural anchors resolved and the
best-offer element absent, a record is still emitted with `bestOffer` empty
and no exception escaping; its `scanAddress` is the input address and its
`assetNumber` is the asset URL's final `/`-segment, so they are non-empty
whenever the address is non-empty and the URL does not end in `/`. -/
theorem best_offer_absent_record (today a u : String) (b : PageBehavior)
    (h1 : b.sessionOk = true) (h2 : b.assetAnchor = some u)
    (h3 : b.assetLink = true) (h4 : b.bestOffer = none) :
    ∃ s : Stats, (resolveAddress today a b).outcome = AddrOutcome.emitted s ∧
      s.bestOffer = "" ∧ s.scanAddress = a ∧
      s.assetNumber = (pySplit u '/').getLastD "" ∧
      (a ≠ "" → s.scanAddress ≠ "") ∧
      ((pySplit u '/').getLastD "" ≠ "" → s.assetNumber ≠ "") := by
  have hr := resolveAddress_done today a b u h1 h2 h3
  refine ⟨doneStats today a b u, by rw [hr], ?_, rfl, rfl,
    fun hh => hh, fun hh => hh⟩
  simp [doneStats, h4]

/-- Witness for the amended C6. -/
theorem best_offer_absent_record_witness :
    ∃ s : Stats, (resolveAddress "01-01-2024" "addr1" bNoOffer).outcome =
        AddrOutcome.emitted s ∧
      s.bestOffer = "" ∧ s.scanAddress = "addr1" ∧
      s.assetNumber =
        (pySplit "https://opensea.io/assets/ethereum/0xabc/" '/').getLastD "" ∧
      ("addr1" ≠ "" → s.scanAddress ≠ "") ∧
      ((pySplit "https://opensea.io/assets/ethereum/0xabc/" '/').getLastD "" ≠ "" →
        s.assetNumber ≠ "") :=
  best_offer_absent_record "01-01-2024" "addr1"
    "https://opensea.io/assets/ethereum/0xabc/" bNoOffer (by decide) rfl rfl rfl

theorem foldl_appendRecord_present (hd : List String) (rows : List (List String))
    (l : List Stats) :
    List.foldl appendRecord (Store.present hd rows) l =
      Store.present hd (rows ++ l.map statsRow) := by
  induction l generalizing rows with
  | nil => simp
  | cons s rest ih => simp [appendRecord, ih]

/-- Claim C7: the record store is append-or-create with at most one header —
the first append against an absent store creates it with the header row
before the first data row, every later append adds exactly one data row
without rewriting the header, and any records written across a fresh run
followed by a second run yield exactly one header row followed by the data
rows in call order. -/
theorem append_record_single_header :
    (∀ s : Stats, appendRecord Store.absent s =
      Store.present statsHeader [statsRow s]) ∧
    (∀ (hd : List String) (rows : List (List String)) (s : Stats),
      appendRecord (Store.present hd rows) s =
        Store.present hd (rows ++ [statsRow s])) ∧
    (∀ run1 run2 : List Stats, run1 ++ run2 ≠ [] →
      List.foldl appendRecord (List.foldl appendRecord Store.absent run1) run2 =
        Store.present statsHeader ((run1 ++ run2).map statsRow)) := by
  refine ⟨fun s => rfl, fun hd rows s => rfl, fun run1 run2 hne => ?_⟩
  rw [← List.foldl_append]
  rcases hsplit : run1 ++ run2 with _ | ⟨s, rest⟩
  · exact absurd hsplit hne
  · simp [appendRecord, foldl_appendRecord_present]

/-- Witness for C7: one record per process run yields one header and two
data rows in call order. -/
theorem append_record_single_header_witness :
    List.foldl appendRecord (List.foldl appendRecord Store.absent [sGood]) [sGood] =
      Store.present statsHeader (([sGood] ++ [sGood]).map statsRow) :=
  append_record_single_header.2.2 [sGood] [sGood] (by decide)

/-- Claim C9: the settings seed uses the key `"ThreadsCount"` but `main`
reads `"ThreadCount"`, so every run on the seeded defaults raises `KeyError`
before the address file is read and before any address is resolved — for
every address loader the result is the error, never a batch result. -/
theorem seeded_settings_keyerror (today : String)
    (loadAddresses : Unit → List (String × PageBehavior)) :
    main (get_settings none) loadAddresses today =
      Except.error "KeyError: ThreadCount" := rfl

/-- Claim C10: `wait_until_visible` consults the locator kinds in the fixed
priority order css-selector, element-id, name, class-name, tag-name and
waits on exactly the first one supplied (the rest are ignored); with no
locator supplied it returns immediately, waiting on nothing and raising
nothing. -/
theorem wait_until_visible_priority :
    (∀ css_selector element_id nameAttr class_name tag_name : Option String,
      wait_until_visible css_selector element_id nameAttr class_name tag_name =
        firstSuppliedLocator
          [(LocatorKind.cssSelector, css_selector),
           (LocatorKind.elementId, element_id),
           (LocatorKind.nameAttr, nameAttr),
           (LocatorKind.className, class_name),
           (LocatorKind.tagName, tag_name)]) ∧
    wait_until_visible none none none none none = none :=
  ⟨fun _ _ _ _ _ => rfl, rfl⟩

end OpenSeaBot
